import Mathlib

/-!
Verification development for the vertex-AI-prompt-management-poc repository.

Shallow embedding conventions:
* Python strings are `List Char` (abbreviated `Str`); string literals are
  written `"text".data`.
* Python dicts keyed by strings (the registry's `prompts` mapping, a prompt's
  `versions` mapping keyed by `str(n)` which we key by the `Nat` itself, and
  the metadata bag) are association lists with Python dict semantics:
  assignment replaces an existing key in place, otherwise appends.
* The JSON files on disk (prompt registry and migration manifest) are modelled
  as explicit state threaded through each operation; every mutating operation
  returns the new persisted state, and error paths return the state as loaded
  (in the code an exception is raised before `_save` is reached).
* `datetime.utcnow()` is modelled by an explicit `now : Str` argument.
* Python exceptions become the `RegError` result; the code raises `ValueError`
  and `KeyError`, distinguished here by construction site as the error kinds
  the spec names.
-/

/-- Python strings, embedded as lists of characters. -/
abbrev Str := List Char

/-- ASCII apostrophe, used in the error message texts of `store.py`. -/
def squote : Char := Char.ofNat 39

-- ─── config.py ──────────────────────────────────────────────────────────────

/-- config.py: `ENVIRONMENTS = ["dev", "qa", "staging", "prod"]`. -/
def ENVIRONMENTS : List Str := ["dev".data, "qa".data, "staging".data, "prod".data]

/-- config.py: the `ENVIRONMENT_TRANSITIONS` dict, accessed in `migrate.py` via
`.get(source_env)`, which yields `None` both for the value `None` stored at
`"prod"` and for a key that is absent. -/
def ENVIRONMENT_TRANSITIONS (env : Str) : Option Str :=
  if env = "dev".data then some "qa".data
  else if env = "qa".data then some "staging".data
  else if env = "staging".data then some "prod".data
  else none

/-- config.py: `DOMAINS`. -/
def DOMAINS : List Str :=
  ["billing".data, "tech_support".data, "account_mgmt".data, "general".data, "shared".data]

/-- config.py: `AGENT_TYPES = ["dfcx", "adk", "custom"]`. -/
def AGENT_TYPES : List Str := ["dfcx".data, "adk".data, "custom".data]

/-- config.py: `OPERATOR` with its default value (no environment override). -/
def OPERATOR : Str := "pawan.malik".data

/-- config.py: `INITIAL_VERSION = 1`. -/
def INITIAL_VERSION : Nat := 1

/-- config.py: the keys of `DEFAULT_MODEL_PARAMS`, with the float literals
embedded as exact rationals. -/
structure ModelParams where
  model : Str
  temperature : ℚ
  max_output_tokens : Nat
  top_p : ℚ
  top_k : Nat
deriving DecidableEq, Repr

def DEFAULT_MODEL_PARAMS : ModelParams :=
  { model := "gemini-1.5-pro".data
    temperature := 7/10
    max_output_tokens := 1024
    top_p := 9/10
    top_k := 40 }

-- ─── Dict embedding ─────────────────────────────────────────────────────────

/-- First-match lookup in an association list (a Python dict read `d[k]` /
`d.get(k)`; dict keys are unique, so first match is the match). -/
def lookupKV {α β : Type} [DecidableEq α] : List (α × β) → α → Option β
  | [], _ => none
  | (k, v) :: rest, key => if k = key then some v else lookupKV rest key

/-- Replace the value stored at an existing key, keeping positions. -/
def replaceKV {α β : Type} [DecidableEq α] : List (α × β) → α → β → List (α × β)
  | [], _, _ => []
  | (k1, v1) :: rest, k, v =>
    (if k1 = k then (k, v) else (k1, v1)) :: replaceKV rest k v

/-- Python dict assignment `d[k] = v`: replace in place when the key exists,
append otherwise. -/
def dictInsert {α β : Type} [DecidableEq α] (d : List (α × β)) (k : α) (v : β) :
    List (α × β) :=
  if (lookupKV d k).isSome then replaceKV d k v
  else d ++ [(k, v)]

-- ─── Data model (store.py) ─────────────────────────────────────────────────

/-- One entry of a prompt's `versions` mapping. -/
structure Version where
  version : Nat
  system_instructions : Str
  template : Str
  created_at : Str
  created_by : Str
  change_note : Str
deriving DecidableEq, Repr

/-- Metadata values: the bags in this repository hold strings and, for the
`promoted_from_version` key written by the migration engine, integers. -/
inductive MetaVal where
  | s (v : Str)
  | n (v : Nat)
deriving DecidableEq, Repr

abbrev Metadata := List (Str × MetaVal)

/-- A record of the registry (`store.py` builds it as a dict in
`create_prompt`). The `versions` mapping is keyed in the code by `str(n)`;
`Nat.repr` is injective, so we key by the number itself. -/
structure Prompt where
  prompt_id : Str
  name : Str
  domain : Str
  agent_type : Str
  environment : Str
  current_version : Nat
  created_at : Str
  updated_at : Str
  model_parameters : ModelParams
  metadata : Metadata
  versions : List (Nat × Version)
deriving DecidableEq, Repr

/-- The persisted registry document `data["prompts"]`. -/
abbrev Store := List (Str × Prompt)

/-- The error kinds of §7, matching the raise sites in the code (`ValueError`
with the joined validation messages; `ValueError` for an existing id;
`KeyError` for missing prompts; `ValueError` for a missing rollback version;
`ValueError` for promotion from the terminal environment). A `validation`
error carries the list of messages the code joins with a newline. -/
inductive RegError where
  | validation (errors : List Str)
  | alreadyExists (prompt_id : Str)
  | notFound (prompt_id : Str)
  | versionNotFound (target : Nat) (available : List Nat)
  | terminalEnvironment
deriving DecidableEq, Repr

/-- Decimal rendering of a natural number, the embedding of Python
`str(n)` / f-string interpolation of an int. -/
def natStr (n : Nat) : Str := Nat.toDigits 10 n

/-- The Python `repr` of a list of strings, as interpolated into the
validation messages: `["a", "b"]` renders as `['a', 'b']`. -/
def pyListRepr (xs : List Str) : Str :=
  '[' :: (List.intercalate ", ".data
    (xs.map (fun s => squote :: (s ++ [squote])))) ++ [']']

/-- store.py `_validate`: message for an invalid domain. -/
def invalidDomainMsg (domain : Str) : Str :=
  "Invalid domain ".data ++ squote :: domain ++ squote ::
    ". Allowed: ".data ++ pyListRepr DOMAINS

/-- store.py `_validate`: message for an invalid agent type. -/
def invalidAgentTypeMsg (agent_type : Str) : Str :=
  "Invalid agent_type ".data ++ squote :: agent_type ++ squote ::
    ". Allowed: ".data ++ pyListRepr AGENT_TYPES

/-- store.py `_validate`: message for an invalid environment. -/
def invalidEnvironmentMsg (environment : Str) : Str :=
  "Invalid environment ".data ++ squote :: environment ++ squote ::
    ". Allowed: ".data ++ pyListRepr ENVIRONMENTS

/-- store.py `_validate`: collect one message per invalid field, in the
code's order. (The code raises `ValueError("\n".join(errors))` when the list
is nonempty; the `RegError.validation` constructor carries the list.) -/
def validateFields (domain agent_type environment : Str) : List Str :=
  (if domain ∈ DOMAINS then [] else [invalidDomainMsg domain]) ++
  (if agent_type ∈ AGENT_TYPES then [] else [invalidAgentTypeMsg agent_type]) ++
  (if environment ∈ ENVIRONMENTS then [] else [invalidEnvironmentMsg environment])

/-- store.py `_generate_prompt_id`, the name slug:
`name.lower().replace(" ", "_")[:30]`. -/
def slugify (name : Str) : Str :=
  ((name.map Char.toLower).map (fun c => if c = ' ' then '_' else c)).take 30

/-- store.py `_generate_prompt_id`:
`{agent_type}_{domain}_{name_slug}_{environment}`, the environment part
omitted when `environment` is falsy. -/
def generate_prompt_id (name domain agent_type environment : Str) : Str :=
  let name_slug := slugify name
  if environment = [] then
    agent_type ++ '_' :: (domain ++ '_' :: name_slug)
  else
    agent_type ++ '_' :: (domain ++ '_' :: (name_slug ++ '_' :: environment))

/-- store.py `create_prompt`. Returns the result and the persisted store
after the call (unchanged when an error is raised, since every raise happens
before `_save`). `model_parameters or config.DEFAULT_MODEL_PARAMS` and
`metadata or {}` are the `Option.getD` defaults. -/
def create_prompt (now : Str) (name domain agent_type environment : Str)
    (system_instructions template : Str)
    (model_parameters : Option ModelParams) (metadata : Option Metadata)
    (store : Store) : Except RegError Prompt × Store :=
  let errors := validateFields domain agent_type environment
  if errors ≠ [] then
    (.error (.validation errors), store)
  else
    let prompt_id := generate_prompt_id name domain agent_type environment
    if (lookupKV store prompt_id).isSome then
      (.error (.alreadyExists prompt_id), store)
    else
      let prompt : Prompt :=
        { prompt_id := prompt_id
          name := name
          domain := domain
          agent_type := agent_type
          environment := environment
          current_version := INITIAL_VERSION
          created_at := now
          updated_at := now
          model_parameters := model_parameters.getD DEFAULT_MODEL_PARAMS
          metadata := metadata.getD []
          versions := [(INITIAL_VERSION,
            { version := INITIAL_VERSION
              system_instructions := system_instructions
              template := template
              created_at := now
              created_by := OPERATOR
              change_note := "Initial version".data })] }
      (.ok prompt, dictInsert store prompt_id prompt)

/-- store.py `get_prompt`, up to the merged active-version view: the code
returns `{**prompt, **prompt["versions"][current_v]}`; the callers in
`migrate.py` only read keys of the prompt part, so the record itself is
returned here. -/
def get_prompt (store : Store) (prompt_id : Str) : Except RegError Prompt :=
  match lookupKV store prompt_id with
  | none => .error (.notFound prompt_id)
  | some p => .ok p

/-- store.py `list_prompts`: one filter test. The Python guard is
`if f and value != f: continue`, so a `None` or empty-string filter
constrains nothing. -/
def filterPass (filt : Option Str) (value : Str) : Bool :=
  match filt with
  | none => true
  | some f => if f = [] then true else value = f

/-- store.py `list_prompts` with its three optional filters, in insertion
order of the registry dict. -/
def list_prompts (store : Store) (domain environment agent_type : Option Str) :
    List Prompt :=
  (store.map (fun kv => kv.2)).filter (fun p =>
    filterPass domain p.domain &&
    filterPass environment p.environment &&
    filterPass agent_type p.agent_type)

/-- store.py `update_prompt`: append version `current_version + 1`, activate
it, update `updated_at`, optionally replace `model_parameters`. -/
def update_prompt (now : Str) (prompt_id : Str)
    (system_instructions template change_note : Str)
    (model_parameters : Option ModelParams) (store : Store) :
    Except RegError Prompt × Store :=
  match lookupKV store prompt_id with
  | none => (.error (.notFound prompt_id), store)
  | some prompt =>
    let new_version := prompt.current_version + 1
    let prompt' : Prompt :=
      { prompt with
        versions := dictInsert prompt.versions new_version
          { version := new_version
            system_instructions := system_instructions
            template := template
            created_at := now
            created_by := OPERATOR
            change_note := change_note }
        current_version := new_version
        updated_at := now
        model_parameters := model_parameters.getD prompt.model_parameters }
    (.ok prompt', dictInsert store prompt_id prompt')

/-- store.py `rollback`: copy the target version's content into a brand-new
version numbered `current_version + 1` with change note
`"Rollback to v" ++ natStr target_version`, and activate it. -/
def rollback (now : Str) (prompt_id : Str) (target_version : Nat)
    (store : Store) : Except RegError Prompt × Store :=
  match lookupKV store prompt_id with
  | none => (.error (.notFound prompt_id), store)
  | some prompt =>
    match lookupKV prompt.versions target_version with
    | none =>
      (.error (.versionNotFound target_version (prompt.versions.map (fun kv => kv.1))),
        store)
    | some target_content =>
      let new_version := prompt.current_version + 1
      let prompt' : Prompt :=
        { prompt with
          versions := dictInsert prompt.versions new_version
            { version := new_version
              system_instructions := target_content.system_instructions
              template := target_content.template
              created_at := now
              created_by := OPERATOR
              change_note := "Rollback to v".data ++ natStr target_version }
          current_version := new_version
          updated_at := now }
      (.ok prompt', dictInsert store prompt_id prompt')

-- ─── Migration engine (migrate.py) ──────────────────────────────────────────

/-- One entry of the migration manifest, as built in `MigrationEngine.migrate`.
The code formats `migration_id` with a compact timestamp and `timestamp` with
the ISO one; both come from `datetime.utcnow()` at the call, modelled by the
single threaded clock string. -/
structure ManifestEntry where
  migration_id : Str
  source_prompt_id : Str
  target_prompt_id : Str
  source_env : Str
  target_env : Str
  source_version : Nat
  target_version : Option Nat
  operator : Str
  timestamp : Str
  dry_run : Bool
  status : Str
deriving DecidableEq, Repr

/-- The persisted manifest document `{"migrations": [...]}`. -/
abbrev Manifest := List ManifestEntry

/-- migrate.py `_get_base_prompt_id`: strip the suffix `_<env>` for the first
environment in `config.ENVIRONMENTS` that matches (the loop returns on the
first hit), else return the id unchanged. `prompt_id[:-(len(env)+1)]` keeps
all but the last `len(env) + 1` characters. -/
def get_base_prompt_id (prompt_id : Str) : Str :=
  match ENVIRONMENTS.find? (fun env => ('_' :: env).isSuffixOf prompt_id) with
  | some env => prompt_id.take (prompt_id.length - (env.length + 1))
  | none => prompt_id

/-- migrate.py `_build_env_prompt_id`: remove an existing environment suffix
(the loop is the one of `_get_base_prompt_id`, with `break` after the first
hit), then append `_<environment>`. -/
def build_env_prompt_id (base_prompt_id environment : Str) : Str :=
  get_base_prompt_id base_prompt_id ++ '_' :: environment

/-- migrate.py `migrate`, step 1: exact id match first, otherwise the first
registry key (in insertion order) whose base id equals the input's base id. -/
def resolvePromptId (store : Store) (prompt_id : Str) : Option Str :=
  let all_ids := store.map (fun kv => kv.1)
  if all_ids.contains prompt_id then some prompt_id
  else all_ids.find? (fun pid =>
    get_base_prompt_id pid == get_base_prompt_id prompt_id)

/-- migrate.py `migrate`, real-run create path: the metadata merge
`{**source_metadata, "promoted_from": ..., "promoted_from_version": ...,
"promoted_by": ...}`. -/
def promotedMetadata (source_metadata : Metadata) (source_env : Str)
    (source_version : Nat) : Metadata :=
  dictInsert
    (dictInsert
      (dictInsert source_metadata "promoted_from".data (.s source_env))
      "promoted_from_version".data (.n source_version))
    "promoted_by".data (.s OPERATOR)

/-- migrate.py `MigrationEngine.migrate`. The state is the pair of the two
persisted documents (registry store, manifest). Error paths return the state
as loaded. On a dry run the entry is returned with `status = "dry_run"` and
nothing is saved; on a real run the registry is saved by
`update_prompt`/`create_prompt` and the finalized entry (status `"success"`,
`target_version` filled in) is appended to the manifest and saved. -/
def migrate (now : Str) (prompt_id : Str) (dry_run : Bool)
    (st : Store × Manifest) : Except RegError ManifestEntry × (Store × Manifest) :=
  let store := st.1
  match resolvePromptId store prompt_id with
  | none => (.error (.notFound prompt_id), st)
  | some resolved_id =>
    match lookupKV store resolved_id with
    | none => (.error (.notFound resolved_id), st)
    | some source_prompt =>
      let source_env := source_prompt.environment
      let source_version := source_prompt.current_version
      match lookupKV source_prompt.versions source_version with
      | none =>
        (.error (.versionNotFound source_version
          (source_prompt.versions.map (fun kv => kv.1))), st)
      | some version_content =>
        match ENVIRONMENT_TRANSITIONS source_env with
        | none => (.error .terminalEnvironment, st)
        | some target_env =>
          let base_id := get_base_prompt_id resolved_id
          let target_prompt_id := build_env_prompt_id base_id target_env
          let entry : ManifestEntry :=
            { migration_id := "mig_".data ++ base_id ++ '_' :: source_env ++
                "_to_".data ++ target_env ++ '_' :: now
              source_prompt_id := resolved_id
              target_prompt_id := target_prompt_id
              source_env := source_env
              target_env := target_env
              source_version := source_version
              target_version := none
              operator := OPERATOR
              timestamp := now
              dry_run := dry_run
              status := "pending".data }
          if dry_run then
            (.ok { entry with status := "dry_run".data }, st)
          else
            let existing_in_target :=
              (list_prompts store none (some target_env) none).map
                (fun p => p.prompt_id)
            if target_prompt_id ∈ existing_in_target then
              match update_prompt now target_prompt_id
                  version_content.system_instructions version_content.template
                  ("Promoted from ".data ++ source_env ++ " v".data ++
                    natStr source_version) none store with
              | (.error e, store') => (.error e, (store', st.2))
              | (.ok updated, store') =>
                let entry' := { entry with
                  target_version := some updated.current_version
                  status := "success".data }
                (.ok entry', (store', st.2 ++ [entry']))
            else
              match create_prompt now source_prompt.name source_prompt.domain
                  source_prompt.agent_type target_env
                  version_content.system_instructions version_content.template
                  (some source_prompt.model_parameters)
                  (some (promotedMetadata source_prompt.metadata source_env
                    source_version)) store with
              | (.error e, store') => (.error e, (store', st.2))
              | (.ok created, store') =>
                let entry' := { entry with
                  target_version := some created.current_version
                  status := "success".data }
                (.ok entry', (store', st.2 ++ [entry']))

-- ─── Concrete sample data (witness inputs) ─────────────────────────────────

/-- A fixed clock value for concrete runs. -/
def ts0 : Str := "2025-01-01T00:00:00Z".data

def sampleName : Str := "billing_payment_query".data

/-- The id the store derives for the sample prompt:
`dfcx_billing_billing_payment_query_dev`. -/
def samplePid : Str :=
  generate_prompt_id sampleName "billing".data "dfcx".data "dev".data

/-- Creation of the sample prompt in an empty registry. -/
def sampleSeed : Except RegError Prompt × Store :=
  create_prompt ts0 sampleName "billing".data "dfcx".data "dev".data
    "You are a billing support assistant.".data
    "Customer query about payment.".data none none []

def sampleStore : Store := sampleSeed.2

def emptyVersion : Version :=
  { version := 0, system_instructions := [], template := [], created_at := []
    created_by := [], change_note := [] }

def emptyPrompt : Prompt :=
  { prompt_id := [], name := [], domain := [], agent_type := [], environment := []
    current_version := 0, created_at := [], updated_at := []
    model_parameters := DEFAULT_MODEL_PARAMS, metadata := [], versions := [] }

def emptyEntry : ManifestEntry :=
  { migration_id := [], source_prompt_id := [], target_prompt_id := []
    source_env := [], target_env := [], source_version := 0, target_version := none
    operator := [], timestamp := [], dry_run := false, status := [] }

def samplePrompt : Prompt := sampleSeed.1.toOption.getD emptyPrompt

def sampleV1 : Version := (lookupKV samplePrompt.versions 1).getD emptyVersion

/-- Concrete rollback run (witness for the rollback claim). -/
def c3run : Except RegError Prompt × Store := rollback ts0 samplePid 1 sampleStore

def c3prompt : Prompt := c3run.1.toOption.getD emptyPrompt

/-- Concrete real migration run (witness for the manifest claim). -/
def c1run : Except RegError ManifestEntry × (Store × Manifest) :=
  migrate ts0 samplePid false (sampleStore, [])

def c1entry : ManifestEntry := c1run.1.toOption.getD emptyEntry

/-- Concrete dry-run migration (witness for the dry-run claim). -/
def c2run : Except RegError ManifestEntry × (Store × Manifest) :=
  migrate ts0 samplePid true (sampleStore, [])

def c2entry : ManifestEntry := c2run.1.toOption.getD emptyEntry

/-- Concrete real migration run used by the promotion-order witness. -/
def c5run : Except RegError ManifestEntry × (Store × Manifest) :=
  migrate ts0 samplePid false (sampleStore, [])

def c5entry : ManifestEntry := c5run.1.toOption.getD emptyEntry

/-- Concrete update run (witness for the version-invariant claim). -/
def c4run : Except RegError Prompt × Store :=
  update_prompt ts0 samplePid "new instructions".data "new template".data
    "Second version".data none sampleStore

def c4prompt : Prompt := c4run.1.toOption.getD emptyPrompt

/-- Concrete second create of the same tuple (witness for idempotence). -/
def c8run1 : Except RegError Prompt × Store :=
  create_prompt ts0 sampleName "billing".data "dfcx".data "dev".data
    "first instructions".data "first template".data none none []

def c8prompt : Prompt := c8run1.1.toOption.getD emptyPrompt

/-- The §3 record invariant: `current_version ≥ 1` and the `versions` keys
are exactly the contiguous integers `1 .. current_version`, in insertion
order (so `current_version` is the highest key present). -/
def VersionsWF (p : Prompt) : Prop :=
  1 ≤ p.current_version ∧
  p.versions.map (fun kv => kv.1) = List.range' 1 p.current_version

-- ─── Dictionary lemmas ──────────────────────────────────────────────────────────

theorem lookupKV_replace_self {α β : Type} [DecidableEq α] (k : α) (v : β) :
    ∀ d : List (α × β), (lookupKV d k).isSome = true →
      lookupKV (replaceKV d k v) k = some v
  | [], h => by simp [lookupKV] at h
  | (k1, v1) :: rest, h => by
    by_cases hk : k1 = k
    · rw [replaceKV, if_pos hk, lookupKV, if_pos rfl]
    · have hrest : (lookupKV rest k).isSome = true := by
        simpa [lookupKV, hk] using h
      rw [replaceKV, if_neg hk, lookupKV, if_neg hk]
      exact lookupKV_replace_self k v rest hrest

theorem lookupKV_replace_ne {α β : Type} [DecidableEq α] (k k' : α) (v : β)
    (h : k ≠ k') :
    ∀ d : List (α × β), lookupKV (replaceKV d k v) k' = lookupKV d k'
  | [] => by simp [replaceKV]
  | (k1, v1) :: rest => by
    by_cases hk : k1 = k
    · rw [replaceKV, if_pos hk, lookupKV, if_neg h, lookupKV, if_neg (hk ▸ h)]
      exact lookupKV_replace_ne k k' v h rest
    · rw [replaceKV, if_neg hk, lookupKV, lookupKV]
      split
      · rfl
      · exact lookupKV_replace_ne k k' v h rest

theorem lookupKV_append_ne {α β : Type} [DecidableEq α] (k k' : α) (v : β)
    (h : k ≠ k') :
    ∀ d : List (α × β), lookupKV (d ++ [(k, v)]) k' = lookupKV d k'
  | [] => by simp [lookupKV, h]
  | (k1, v1) :: rest => by
    rw [List.cons_append, lookupKV, lookupKV]
    split
    · rfl
    · exact lookupKV_append_ne k k' v h rest

theorem lookupKV_append_self {α β : Type} [DecidableEq α] (k : α) (v : β) :
    ∀ d : List (α × β), lookupKV d k = none →
      lookupKV (d ++ [(k, v)]) k = some v
  | [], _ => by simp [lookupKV]
  | (k1, v1) :: rest, h => by
    rw [lookupKV] at h
    rw [List.cons_append, lookupKV]
    by_cases hk : k1 = k
    · simp [hk] at h
    · simp only [if_neg hk] at h ⊢
      exact lookupKV_append_self k v rest h

theorem lookupKV_dictInsert_self {α β : Type} [DecidableEq α]
    (d : List (α × β)) (k : α) (v : β) :
    lookupKV (dictInsert d k v) k = some v := by
  unfold dictInsert
  by_cases h : (lookupKV d k).isSome = true
  · rw [if_pos h]
    exact lookupKV_replace_self k v d h
  · rw [if_neg h]
    exact lookupKV_append_self k v d (by
      cases hl : lookupKV d k
      · rfl
      · exact absurd (by simp [hl]) h)

theorem lookupKV_dictInsert_ne {α β : Type} [DecidableEq α]
    (d : List (α × β)) (k k' : α) (v : β) (h : k ≠ k') :
    lookupKV (dictInsert d k v) k' = lookupKV d k' := by
  unfold dictInsert
  split
  · exact lookupKV_replace_ne k k' v h d
  · exact lookupKV_append_ne k k' v h d

theorem lookupKV_eq_none_iff {α β : Type} [DecidableEq α] (k : α) :
    ∀ d : List (α × β), lookupKV d k = none ↔ k ∉ d.map (fun kv => kv.1)
  | [] => by simp [lookupKV]
  | (k1, v1) :: rest => by
    rw [lookupKV]
    by_cases h : k1 = k
    · subst h
      simp
    · simp [h, lookupKV_eq_none_iff k rest, Ne.symm h]

theorem dictInsert_of_lookup_none {α β : Type} [DecidableEq α]
    (d : List (α × β)) (k : α) (v : β) (h : lookupKV d k = none) :
    dictInsert d k v = d ++ [(k, v)] := by
  unfold dictInsert
  rw [h]
  rfl

-- ─── Environment-suffix lemmas ─────────────────────────────────────────────

/-- Among the four environment suffixes, none is a proper suffix of another:
`_e'` a suffix of `_e` forces `e' = e`. -/
theorem env_suffix_pair : ∀ e ∈ ENVIRONMENTS, ∀ e' ∈ ENVIRONMENTS,
    ('_' :: e') <:+ ('_' :: e) → e' = e := by decide

/-- If a string ends with `_e` for an environment `e`, then `_e'` is a suffix
of it for an environment `e'` only when `e' = e` (environments contain no
underscore and none is a suffix of another). -/
theorem suffix_env_unique {b e e' : Str} (he : e ∈ ENVIRONMENTS)
    (he' : e' ∈ ENVIRONMENTS) (h : ('_' :: e') <:+ (b ++ '_' :: e)) : e' = e := by
  have h1 : ('_' :: e) <:+ (b ++ '_' :: e) := List.suffix_append _ _
  rcases List.suffix_or_suffix_of_suffix h h1 with h2 | h2
  · exact env_suffix_pair e he e' he' h2
  · exact (env_suffix_pair e' he' e he h2).symm

theorem isSuffixOf_env_self (b e : Str) :
    (('_' :: e).isSuffixOf (b ++ '_' :: e)) = true :=
  List.isSuffixOf_iff_suffix.mpr (List.suffix_append _ _)

theorem isSuffixOf_env_ne {b e e' : Str} (he : e ∈ ENVIRONMENTS)
    (he' : e' ∈ ENVIRONMENTS) (hne : e' ≠ e) :
    (('_' :: e').isSuffixOf (b ++ '_' :: e)) = false := by
  rw [Bool.eq_false_iff]
  intro h
  exact hne (suffix_env_unique he he' (List.isSuffixOf_iff_suffix.mp h))

/-- Stripping the environment suffix from an id that ends with `_e` for an
environment `e` yields exactly the part before the suffix. -/
theorem get_base_prompt_id_append_env {b e : Str} (he : e ∈ ENVIRONMENTS) :
    get_base_prompt_id (b ++ '_' :: e) = b := by
  have hlen : (b ++ '_' :: e).length - (e.length + 1) = b.length := by
    simp [List.length_append]
  fin_cases he
  · have h1 := isSuffixOf_env_self b "dev".data
    simp [get_base_prompt_id, ENVIRONMENTS, List.find?, h1, hlen, List.take_left]
  · have h1 := @isSuffixOf_env_ne b "qa".data "dev".data
      (by decide) (by decide) (by decide)
    have h2 := isSuffixOf_env_self b "qa".data
    simp [get_base_prompt_id, ENVIRONMENTS, List.find?, h1, h2, hlen, List.take_left]
  · have h1 := @isSuffixOf_env_ne b "staging".data "dev".data
      (by decide) (by decide) (by decide)
    have h2 := @isSuffixOf_env_ne b "staging".data "qa".data
      (by decide) (by decide) (by decide)
    have h3 := isSuffixOf_env_self b "staging".data
    simp [get_base_prompt_id, ENVIRONMENTS, List.find?, h1, h2, h3, hlen, List.take_left]
  · have h1 := @isSuffixOf_env_ne b "prod".data "dev".data
      (by decide) (by decide) (by decide)
    have h2 := @isSuffixOf_env_ne b "prod".data "qa".data
      (by decide) (by decide) (by decide)
    have h3 := @isSuffixOf_env_ne b "prod".data "staging".data
      (by decide) (by decide) (by decide)
    have h4 := isSuffixOf_env_self b "prod".data
    simp [get_base_prompt_id, ENVIRONMENTS, List.find?, h1, h2, h3, h4, hlen, List.take_left]

/-- The transition table, case by case. -/
theorem transitions_cases {e t : Str} (h : ENVIRONMENT_TRANSITIONS e = some t) :
    (e = "dev".data ∧ t = "qa".data) ∨ (e = "qa".data ∧ t = "staging".data) ∨
    (e = "staging".data ∧ t = "prod".data) := by
  unfold ENVIRONMENT_TRANSITIONS at h
  split_ifs at h <;> simp_all

/-- A target environment produced by the transition table is itself an
environment and differs from the source. -/
theorem transitions_mem_ne {e t : Str} (h : ENVIRONMENT_TRANSITIONS e = some t) :
    t ∈ ENVIRONMENTS ∧ t ≠ e := by
  rcases transitions_cases h with ⟨he, ht⟩ | ⟨he, ht⟩ | ⟨he, ht⟩ <;>
    subst he <;> subst ht <;> exact ⟨by decide, by decide⟩

/-- Two ids ending in different environment suffixes are different strings. -/
theorem target_ne_source {b b' e t : Str} (he : e ∈ ENVIRONMENTS)
    (ht : t ∈ ENVIRONMENTS) (hne : t ≠ e) : b' ++ '_' :: t ≠ b ++ '_' :: e := by
  intro hEq
  have hsuf : ('_' :: t) <:+ (b ++ '_' :: e) := hEq ▸ List.suffix_append b' ('_' :: t)
  exact hne (suffix_env_unique he ht hsuf)

-- ─── Identifier-scheme helper lemmas ───────────────────────────────────────

/-- Cancel an underscore-free segment before the first underscore. -/
theorem append_underscore_cancel {r1 r2 : Str} :
    ∀ {s1 s2 : Str}, '_' ∉ s1 → '_' ∉ s2 →
      s1 ++ '_' :: r1 = s2 ++ '_' :: r2 → s1 = s2 ∧ r1 = r2
  | [], [], _, _, h => by simpa using h
  | [], c :: cs, _, h2, h => by
    simp only [List.nil_append, List.cons_append, List.cons.injEq] at h
    exact absurd (by rw [h.1]; exact List.mem_cons_self c cs) h2
  | c :: cs, [], h1, _, h => by
    simp only [List.nil_append, List.cons_append, List.cons.injEq] at h
    exact absurd (by rw [← h.1]; exact List.mem_cons_self c cs) h1
  | c :: cs, d :: ds, h1, h2, h => by
    simp only [List.cons_append, List.cons.injEq] at h
    obtain ⟨hc, hrest⟩ := h
    obtain ⟨hs, hr⟩ := append_underscore_cancel
      (fun hm => h1 (List.mem_cons_of_mem c hm))
      (fun hm => h2 (List.mem_cons_of_mem d hm)) hrest
    exact ⟨by rw [hc, hs], hr⟩

/-- Equal concatenations with nonempty left parts have equal first elements. -/
theorem append_head_eq {l1 l2 x y : Str} (h1 : l1 ≠ []) (h2 : l2 ≠ [])
    (h : l1 ++ x = l2 ++ y) : l1.head? = l2.head? := by
  cases l1 with
  | nil => exact absurd rfl h1
  | cons a as =>
    cases l2 with
    | nil => exact absurd rfl h2
    | cons b bs =>
      simp only [List.cons_append, List.cons.injEq] at h
      simp [h.1]

theorem domains_nonempty : ∀ d ∈ DOMAINS, d ≠ [] := by decide

theorem domains_head_ne : ∀ d1 ∈ DOMAINS, ∀ d2 ∈ DOMAINS,
    d1 ≠ d2 → d1.head? ≠ d2.head? := by decide

theorem agent_types_no_underscore : ∀ a ∈ AGENT_TYPES, '_' ∉ a := by decide

theorem env_nonempty : ∀ e ∈ ENVIRONMENTS, e ≠ [] := by decide

-- ─── The version-numbering invariant ───────────────────────────────────────

theorem VersionsWF.key_fresh {p : Prompt} (hwf : VersionsWF p) :
    lookupKV p.versions (p.current_version + 1) = none := by
  rw [lookupKV_eq_none_iff, hwf.2, List.mem_range'_1]
  omega

-- ─── Filter semantics helpers ──────────────────────────────────────────────

theorem filterPass_iff (fo : Option Str) (v : Str) (h : ∀ f, fo = some f → f ≠ []) :
    filterPass fo v = true ↔ ∀ f, fo = some f → v = f := by
  cases fo with
  | none => simp [filterPass]
  | some f =>
    have hf := h f rfl
    simp [filterPass, hf]

theorem list_prompts_mem_iff (store : Store) (fd fe fa : Option Str) (p : Prompt)
    (hd : ∀ d, fd = some d → d ≠ [])
    (he : ∀ e, fe = some e → e ≠ [])
    (ha : ∀ a, fa = some a → a ≠ []) :
    p ∈ list_prompts store fd fe fa ↔
      (p ∈ store.map (fun kv => kv.2) ∧
        (∀ d, fd = some d → p.domain = d) ∧
        (∀ e, fe = some e → p.environment = e) ∧
        (∀ a, fa = some a → p.agent_type = a)) := by
  unfold list_prompts
  rw [List.mem_filter, Bool.and_eq_true, Bool.and_eq_true,
    filterPass_iff fd p.domain hd, filterPass_iff fe p.environment he,
    filterPass_iff fa p.agent_type ha]
  tauto

-- ─── Claim theorems ────────────────────────────────────────────────────────

/-- C10 (confirmed): passing an empty-string filter to `list_prompts` behaves
exactly like passing no filter for that field, because the Python guard tests
the filter for truthiness; with all three filters empty every record of the
store is returned. -/
theorem C10_empty_string_filter_is_no_filter (store : Store) (fd fe fa : Option Str) :
    list_prompts store (some []) fe fa = list_prompts store none fe fa ∧
    list_prompts store fd (some []) fa = list_prompts store fd none fa ∧
    list_prompts store fd fe (some []) = list_prompts store fd fe none ∧
    list_prompts store (some []) (some []) (some []) = store.map (fun kv => kv.2) := by
  refine ⟨rfl, ?_, ?_, ?_⟩
  · unfold list_prompts
    congr 1
  · unfold list_prompts
    congr 1
  · unfold list_prompts
    simp [filterPass]

/-- C6 (confirmed): with genuinely supplied (nonempty) filters,
`list_prompts` returns exactly the records satisfying all supplied filters
(AND semantics), and in particular a domain filter D1 never returns a record
of a different domain D2, and likewise for environments. -/
theorem C6_list_filter_semantics (store : Store) (fd fe fa : Option Str)
    (hd : ∀ d, fd = some d → d ≠ [])
    (he : ∀ e, fe = some e → e ≠ [])
    (ha : ∀ a, fa = some a → a ≠ []) :
    (∀ p : Prompt, p ∈ list_prompts store fd fe fa ↔
      (p ∈ store.map (fun kv => kv.2) ∧
        (∀ d, fd = some d → p.domain = d) ∧
        (∀ e, fe = some e → p.environment = e) ∧
        (∀ a, fa = some a → p.agent_type = a))) ∧
    (∀ D1 D2 : Str, D1 ∈ DOMAINS → D2 ∈ DOMAINS → D1 ≠ D2 →
      ∀ p ∈ list_prompts store (some D1) fe fa, p.domain ≠ D2) ∧
    (∀ E1 E2 : Str, E1 ∈ ENVIRONMENTS → E2 ∈ ENVIRONMENTS → E1 ≠ E2 →
      ∀ p ∈ list_prompts store fd (some E1) fa, p.environment ≠ E2) := by
  refine ⟨fun p => list_prompts_mem_iff store fd fe fa p hd he ha, ?_, ?_⟩
  · intro D1 D2 hD1 _ hne p hp
    have h := (list_prompts_mem_iff store (some D1) fe fa p
      (fun d hd' => by cases hd'; exact domains_nonempty D1 hD1) he ha).mp hp
    rw [h.2.1 D1 rfl]
    exact hne
  · intro E1 E2 hE1 _ hne p hp
    have h := (list_prompts_mem_iff store fd (some E1) fa p hd
      (fun e he' => by cases he'; exact env_nonempty E1 hE1) ha).mp hp
    rw [h.2.2.1 E1 rfl]
    exact hne

/-- Witness for C6 at a concrete input: the sample prompt returned by a
billing-domain query does not belong to the shared domain. -/
theorem C6_witness : samplePrompt.domain ≠ "shared".data :=
  (C6_list_filter_semantics sampleStore (some "billing".data) none none
    (fun _ hd => by cases hd; decide) (fun _ he => nomatch he)
    (fun _ ha => nomatch ha)).2.1
    "billing".data "shared".data (by decide) (by decide) (by decide)
    samplePrompt (by
      rw [show list_prompts sampleStore (some "billing".data) none none =
        [samplePrompt] from rfl]
      exact List.mem_singleton_self _)

/-- C7 (confirmed): a create call with one or more fields outside the closed
sets fails with a validation error whose message list carries one message per
invalid field (all of them, not just the first), and the persisted store is
returned unchanged. -/
theorem C7_validation_lists_all_errors (now name domain agent_type environment
    system_instructions template : Str)
    (mp : Option ModelParams) (meta : Option Metadata) (store : Store)
    (h : domain ∉ DOMAINS ∨ agent_type ∉ AGENT_TYPES ∨ environment ∉ ENVIRONMENTS) :
    create_prompt now name domain agent_type environment system_instructions
        template mp meta store =
      (.error (.validation (validateFields domain agent_type environment)), store) ∧
    (domain ∉ DOMAINS →
      invalidDomainMsg domain ∈ validateFields domain agent_type environment) ∧
    (agent_type ∉ AGENT_TYPES →
      invalidAgentTypeMsg agent_type ∈ validateFields domain agent_type environment) ∧
    (environment ∉ ENVIRONMENTS →
      invalidEnvironmentMsg environment ∈ validateFields domain agent_type environment) := by
  have hne : validateFields domain agent_type environment ≠ [] := by
    rcases h with h | h | h
    · exact List.ne_nil_of_mem (a := invalidDomainMsg domain)
        (by simp [validateFields, h])
    · exact List.ne_nil_of_mem (a := invalidAgentTypeMsg agent_type)
        (by simp [validateFields, h])
    · exact List.ne_nil_of_mem (a := invalidEnvironmentMsg environment)
        (by simp [validateFields, h])
  refine ⟨?_, ?_, ?_, ?_⟩
  · simp only [create_prompt, if_pos hne]
  · intro hd
    simp [validateFields, hd]
  · intro ha
    simp [validateFields, ha]
  · intro henv
    simp [validateFields, henv]

/-- Witness for C7 at a concrete input: a create with a bogus domain fails
with the validation error listing the domain message, and leaves the sample
store untouched. -/
theorem C7_witness :
    create_prompt ts0 sampleName "bogus".data "dfcx".data "dev".data
        "i".data "t".data none none sampleStore =
      (.error (.validation (validateFields "bogus".data "dfcx".data "dev".data)),
        sampleStore) ∧
    invalidDomainMsg "bogus".data ∈ validateFields "bogus".data "dfcx".data "dev".data := by
  have h := C7_validation_lists_all_errors ts0 sampleName "bogus".data "dfcx".data
    "dev".data "i".data "t".data none none sampleStore (Or.inl (by decide))
  exact ⟨h.1, h.2.1 (by decide)⟩

/-- C3 (confirmed): `rollback(id, v)` succeeds when the record and target
version exist, persists a record whose `current_version` is the previous one
plus one, and whose new active version copies the target version's
`system_instructions` and `template` exactly, with change note
`Rollback to v` followed by the version number. -/
theorem C3_rollback_correct (now pid : Str) (v : Nat) (store : Store)
    (p : Prompt) (tv : Version)
    (hp : lookupKV store pid = some p)
    (htv : lookupKV p.versions v = some tv) :
    (rollback now pid v store).1.isOk = true ∧
    (∀ p', (rollback now pid v store).1 = .ok p' →
      (rollback now pid v store).2 = dictInsert store pid p' ∧
      p'.current_version = p.current_version + 1 ∧
      lookupKV p'.versions p'.current_version = some
        { version := p.current_version + 1
          system_instructions := tv.system_instructions
          template := tv.template
          created_at := now
          created_by := OPERATOR
          change_note := "Rollback to v".data ++ natStr v }) := by
  have heq : rollback now pid v store =
      (.ok { p with
          versions := dictInsert p.versions (p.current_version + 1)
            { version := p.current_version + 1
              system_instructions := tv.system_instructions
              template := tv.template
              created_at := now
              created_by := OPERATOR
              change_note := "Rollback to v".data ++ natStr v }
          current_version := p.current_version + 1
          updated_at := now },
        dictInsert store pid { p with
          versions := dictInsert p.versions (p.current_version + 1)
            { version := p.current_version + 1
              system_instructions := tv.system_instructions
              template := tv.template
              created_at := now
              created_by := OPERATOR
              change_note := "Rollback to v".data ++ natStr v }
          current_version := p.current_version + 1
          updated_at := now }) := by
    simp only [rollback, hp, htv]
  rw [heq]
  refine ⟨rfl, ?_⟩
  intro p' hp'
  cases hp'
  refine ⟨rfl, rfl, ?_⟩
  exact lookupKV_dictInsert_self _ _ _

/-- Witness for C3 at a concrete input: rolling the sample prompt back to
version 1 yields version 2 with the version-1 content. -/
theorem C3_witness :
    (rollback ts0 samplePid 1 sampleStore).1.isOk = true ∧
    ((rollback ts0 samplePid 1 sampleStore).2 =
        dictInsert sampleStore samplePid c3prompt ∧
      c3prompt.current_version = samplePrompt.current_version + 1 ∧
      lookupKV c3prompt.versions c3prompt.current_version = some
        { version := samplePrompt.current_version + 1
          system_instructions := sampleV1.system_instructions
          template := sampleV1.template
          created_at := ts0
          created_by := OPERATOR
          change_note := "Rollback to v".data ++ natStr 1 }) := by
  have h := C3_rollback_correct ts0 samplePid 1 sampleStore samplePrompt sampleV1
    rfl rfl
  exact ⟨h.1, h.2 c3prompt rfl⟩

/-- C8 (confirmed): creating the same (source, domain, name, environment)
tuple twice leaves exactly one persisted record: the first call appends it,
the second fails with the already-exists error and returns the store
unchanged, and the derived id occurs exactly once among the keys. -/
theorem C8_create_idempotent (now now2 name domain agent_type environment : Str)
    (si tpl si2 tpl2 : Str) (mp mp2 : Option ModelParams)
    (meta meta2 : Option Metadata) (store : Store)
    (hd : domain ∈ DOMAINS) (ha : agent_type ∈ AGENT_TYPES)
    (he : environment ∈ ENVIRONMENTS)
    (hfresh : lookupKV store (generate_prompt_id name domain agent_type environment) = none) :
    (create_prompt now name domain agent_type environment si tpl mp meta store).1.isOk = true ∧
    (∀ p, (create_prompt now name domain agent_type environment si tpl mp meta store).1 = .ok p →
      (create_prompt now name domain agent_type environment si tpl mp meta store).2 =
        store ++ [(generate_prompt_id name domain agent_type environment, p)]) ∧
    create_prompt now2 name domain agent_type environment si2 tpl2 mp2 meta2
        (create_prompt now name domain agent_type environment si tpl mp meta store).2 =
      (.error (.alreadyExists (generate_prompt_id name domain agent_type environment)),
        (create_prompt now name domain agent_type environment si tpl mp meta store).2) ∧
    ((create_prompt now name domain agent_type environment si tpl mp meta store).2.map
        (fun kv => kv.1)).count
      (generate_prompt_id name domain agent_type environment) = 1 := by
  have hval : validateFields domain agent_type environment = [] := by
    simp [validateFields, hd, ha, he]
  have h1 : create_prompt now name domain agent_type environment si tpl mp meta store =
      (.ok { prompt_id := generate_prompt_id name domain agent_type environment
             name := name
             domain := domain
             agent_type := agent_type
             environment := environment
             current_version := INITIAL_VERSION
             created_at := now
             updated_at := now
             model_parameters := mp.getD DEFAULT_MODEL_PARAMS
             metadata := meta.getD []
             versions := [(INITIAL_VERSION,
               { version := INITIAL_VERSION
                 system_instructions := si
                 template := tpl
                 created_at := now
                 created_by := OPERATOR
                 change_note := "Initial version".data })] },
        store ++ [(generate_prompt_id name domain agent_type environment,
          { prompt_id := generate_prompt_id name domain agent_type environment
            name := name
            domain := domain
            agent_type := agent_type
            environment := environment
            current_version := INITIAL_VERSION
            created_at := now
            updated_at := now
            model_parameters := mp.getD DEFAULT_MODEL_PARAMS
            metadata := meta.getD []
            versions := [(INITIAL_VERSION,
              { version := INITIAL_VERSION
                system_instructions := si
                template := tpl
                created_at := now
                created_by := OPERATOR
                change_note := "Initial version".data })] })]) := by
    rw [create_prompt]
    simp only [hval, hfresh, ne_eq, not_true_eq_false, if_false, Option.isSome_none,
      Bool.false_eq_true, dictInsert_of_lookup_none store _ _ hfresh]
  refine ⟨?_, ?_, ?_, ?_⟩
  · rw [h1]
    rfl
  · intro p hp
    rw [h1] at hp ⊢
    cases hp
    rfl
  · rw [h1]
    rw [create_prompt]
    simp only [hval, ne_eq, not_true_eq_false, if_false,
      lookupKV_append_self _ _ store hfresh, Option.isSome_some, if_true]
  · rw [h1]
    have h0 : (store.map (fun kv : Str × Prompt => kv.1)).count
        (generate_prompt_id name domain agent_type environment) = 0 :=
      List.count_eq_zero.mpr ((lookupKV_eq_none_iff _ store).mp hfresh)
    simp only [List.map_append, List.count_append, h0, List.map_cons, List.map_nil]
    simp

/-- Witness for C8 at a concrete input: creating the sample tuple twice in an
empty registry keeps exactly one record and the second call errors. -/
theorem C8_witness :
    (create_prompt ts0 sampleName "billing".data "dfcx".data "dev".data
      "first instructions".data "first template".data none none []).1.isOk = true ∧
    ((create_prompt ts0 sampleName "billing".data "dfcx".data "dev".data
        "first instructions".data "first template".data none none []).2 =
      [] ++ [(generate_prompt_id sampleName "billing".data "dfcx".data "dev".data,
        c8prompt)]) ∧
    create_prompt ts0 sampleName "billing".data "dfcx".data "dev".data
        "second instructions".data "second template".data none none
        (create_prompt ts0 sampleName "billing".data "dfcx".data "dev".data
          "first instructions".data "first template".data none none []).2 =
      (.error (.alreadyExists
          (generate_prompt_id sampleName "billing".data "dfcx".data "dev".data)),
        (create_prompt ts0 sampleName "billing".data "dfcx".data "dev".data
          "first instructions".data "first template".data none none []).2) ∧
    ((create_prompt ts0 sampleName "billing".data "dfcx".data "dev".data
        "first instructions".data "first template".data none none []).2.map
        (fun kv => kv.1)).count
      (generate_prompt_id sampleName "billing".data "dfcx".data "dev".data) = 1 := by
  have h := C8_create_idempotent ts0 ts0 sampleName "billing".data "dfcx".data
    "dev".data "first instructions".data "first template".data
    "second instructions".data "second template".data none none none none []
    (by decide) (by decide) (by decide) rfl
  exact ⟨h.1, h.2.1 c8prompt rfl, h.2.2.1, h.2.2.2⟩

/-- C9 counterexample: the id derivation is not collision-free for distinct
inputs within the truncation bound: two distinct names (one capitalized with
a space, one lowercase with an underscore), both of whose slugs are well
within the 30-character bound, derive the same identifier. -/
theorem C9_counterexample :
    generate_prompt_id "Payment Query".data "billing".data "dfcx".data "dev".data =
      generate_prompt_id "payment_query".data "billing".data "dfcx".data "dev".data ∧
    "Payment Query".data ≠ "payment_query".data ∧
    (slugify "Payment Query".data).length ≤ 30 ∧
    (slugify "payment_query".data).length ≤ 30 := by decide

/-- C9 (corrected): the id derivation is deterministic (it is a pure function
of the tuple), and for tuples whose closed-set fields are valid it is
collision-free exactly up to the name slug: two tuples derive the same id if
and only if they agree on agent type, domain, environment and on the
lower-cased, space-to-underscore, truncated name slug. -/
theorem C9_id_injective_up_to_slug (n1 d1 a1 e1 n2 d2 a2 e2 : Str)
    (hd1 : d1 ∈ DOMAINS) (hd2 : d2 ∈ DOMAINS)
    (ha1 : a1 ∈ AGENT_TYPES) (ha2 : a2 ∈ AGENT_TYPES)
    (he1 : e1 ∈ ENVIRONMENTS) (he2 : e2 ∈ ENVIRONMENTS) :
    generate_prompt_id n1 d1 a1 e1 = generate_prompt_id n2 d2 a2 e2 ↔
      (a1 = a2 ∧ d1 = d2 ∧ slugify n1 = slugify n2 ∧ e1 = e2) := by
  constructor
  · intro h
    simp only [generate_prompt_id, if_neg (env_nonempty e1 he1),
      if_neg (env_nonempty e2 he2)] at h
    obtain ⟨hA, hrest⟩ := append_underscore_cancel
      (agent_types_no_underscore a1 ha1) (agent_types_no_underscore a2 ha2) h
    have hD : d1 = d2 := by
      by_contra hne
      exact domains_head_ne d1 hd1 d2 hd2 hne
        (append_head_eq (domains_nonempty d1 hd1) (domains_nonempty d2 hd2) hrest)
    subst hD
    have hrest2 : slugify n1 ++ '_' :: e1 = slugify n2 ++ '_' :: e2 := by
      have hcons := List.append_cancel_left hrest
      simpa using hcons
    have hE : e1 = e2 :=
      suffix_env_unique (b := slugify n2) he2 he1
        (hrest2 ▸ List.suffix_append (slugify n1) ('_' :: e1))
    subst hE
    have hG : slugify n1 = slugify n2 := (List.append_inj' hrest2 rfl).1
    exact ⟨hA, rfl, hG, rfl⟩
  · rintro ⟨hA, hD, hG, hE⟩
    simp only [generate_prompt_id, hA, hD, hG, hE]

/-- Witness for C9 at a concrete input: two tuples with valid fields and
different slugs derive different ids. -/
theorem C9_witness :
    generate_prompt_id "alpha payment".data "billing".data "dfcx".data "dev".data ≠
      generate_prompt_id "beta payment".data "billing".data "dfcx".data "dev".data := by
  intro h
  have hmp := (C9_id_injective_up_to_slug "alpha payment".data "billing".data
    "dfcx".data "dev".data "beta payment".data "billing".data "dfcx".data "dev".data
    (by decide) (by decide) (by decide) (by decide) (by decide) (by decide)).mp h
  exact absurd hmp.2.2.1 (by decide)

/-- C4 (confirmed): for every record, `current_version` equals the highest
version key, the keys are the contiguous integers starting at 1, and the
invariant is established by create (at version 1) and preserved by update and
rollback; both extend `versions` by appending one new entry (no existing
entry is edited or removed) and increase `current_version` by one. -/
theorem C4_version_numbering_invariant :
    (∀ now name domain agent_type environment si tpl mp meta store p store',
      create_prompt now name domain agent_type environment si tpl mp meta store =
        (.ok p, store') →
      VersionsWF p ∧ p.current_version = 1) ∧
    (∀ now pid si tpl note mp store p p' store',
      lookupKV store pid = some p → VersionsWF p →
      update_prompt now pid si tpl note mp store = (.ok p', store') →
      VersionsWF p' ∧ p'.current_version = p.current_version + 1 ∧
      p'.versions = p.versions ++ [(p.current_version + 1,
        { version := p.current_version + 1
          system_instructions := si
          template := tpl
          created_at := now
          created_by := OPERATOR
          change_note := note })] ∧
      store' = dictInsert store pid p') ∧
    (∀ now pid v store p tv p' store',
      lookupKV store pid = some p → VersionsWF p →
      lookupKV p.versions v = some tv →
      rollback now pid v store = (.ok p', store') →
      VersionsWF p' ∧ p'.current_version = p.current_version + 1 ∧
      p'.versions = p.versions ++ [(p.current_version + 1,
        { version := p.current_version + 1
          system_instructions := tv.system_instructions
          template := tv.template
          created_at := now
          created_by := OPERATOR
          change_note := "Rollback to v".data ++ natStr v })] ∧
      store' = dictInsert store pid p') := by
  have hconcat : ∀ n : Nat, List.range' 1 (n + 1) = List.range' 1 n ++ [n + 1] := by
    intro n
    have h15 : 1 + 1 * n = n + 1 := by omega
    rw [List.range'_concat, h15]
  refine ⟨?_, ?_, ?_⟩
  · intro now name domain agent_type environment si tpl mp meta store p store' h
    simp only [create_prompt] at h
    split at h
    · exact absurd h (by simp)
    · split at h
      · exact absurd h (by simp)
      · cases h
        exact ⟨⟨le_refl 1, rfl⟩, rfl⟩
  · intro now pid si tpl note mp store p p' store' hp hwf h
    simp only [update_prompt, hp] at h
    cases h
    have happ := dictInsert_of_lookup_none p.versions (p.current_version + 1)
      { version := p.current_version + 1
        system_instructions := si
        template := tpl
        created_at := now
        created_by := OPERATOR
        change_note := note } hwf.key_fresh
    refine ⟨⟨by show 1 ≤ p.current_version + 1; omega, ?_⟩, rfl, ?_, rfl⟩
    · show (dictInsert p.versions (p.current_version + 1) _).map (fun kv => kv.1) =
        List.range' 1 (p.current_version + 1)
      rw [happ, List.map_append, hwf.2, hconcat]
      rfl
    · exact happ
  · intro now pid v store p tv p' store' hp hwf htv h
    simp only [rollback, hp, htv] at h
    cases h
    have happ := dictInsert_of_lookup_none p.versions (p.current_version + 1)
      { version := p.current_version + 1
        system_instructions := tv.system_instructions
        template := tv.template
        created_at := now
        created_by := OPERATOR
        change_note := "Rollback to v".data ++ natStr v } hwf.key_fresh
    refine ⟨⟨by show 1 ≤ p.current_version + 1; omega, ?_⟩, rfl, ?_, rfl⟩
    · show (dictInsert p.versions (p.current_version + 1) _).map (fun kv => kv.1) =
        List.range' 1 (p.current_version + 1)
      rw [happ, List.map_append, hwf.2, hconcat]
      rfl
    · exact happ

/-- Witness for C4 at concrete inputs: the sample create establishes the
invariant, and the concrete update preserves it, appending version 2. -/
theorem C4_witness :
    (VersionsWF samplePrompt ∧ samplePrompt.current_version = 1) ∧
    (VersionsWF c4prompt ∧ c4prompt.current_version = samplePrompt.current_version + 1 ∧
      c4prompt.versions = samplePrompt.versions ++ [(samplePrompt.current_version + 1,
        { version := samplePrompt.current_version + 1
          system_instructions := "new instructions".data
          template := "new template".data
          created_at := ts0
          created_by := OPERATOR
          change_note := "Second version".data })] ∧
      c4run.2 = dictInsert sampleStore samplePid c4prompt) := by
  have h := C4_version_numbering_invariant
  have hcreate := h.1 ts0 sampleName "billing".data "dfcx".data "dev".data
    "You are a billing support assistant.".data
    "Customer query about payment.".data none none [] samplePrompt sampleStore rfl
  have hupdate := h.2.1 ts0 samplePid "new instructions".data "new template".data
    "Second version".data none sampleStore samplePrompt c4prompt c4run.2
    rfl hcreate.1 rfl
  exact ⟨hcreate, hupdate⟩

-- ─── Store-shape lemmas for the registry operations ────────────────────────

theorem update_prompt_error_store {now pid si tpl note : Str}
    {mp : Option ModelParams} {store : Store} {e : RegError} {store' : Store}
    (h : update_prompt now pid si tpl note mp store = (.error e, store')) :
    store' = store := by
  cases hl : lookupKV store pid with
  | none =>
    simp only [update_prompt, hl] at h
    cases h
    rfl
  | some p =>
    simp only [update_prompt, hl] at h
    cases h

theorem update_prompt_ok_store {now pid si tpl note : Str}
    {mp : Option ModelParams} {store : Store} {p' : Prompt} {store' : Store}
    (h : update_prompt now pid si tpl note mp store = (.ok p', store')) :
    store' = dictInsert store pid p' := by
  cases hl : lookupKV store pid with
  | none =>
    simp only [update_prompt, hl] at h
    cases h
  | some p =>
    simp only [update_prompt, hl] at h
    cases h
    rfl

theorem create_prompt_error_store {now name domain agent_type environment si tpl : Str}
    {mp : Option ModelParams} {meta : Option Metadata} {store : Store}
    {e : RegError} {store' : Store}
    (h : create_prompt now name domain agent_type environment si tpl mp meta store =
      (.error e, store')) : store' = store := by
  simp only [create_prompt] at h
  split at h
  · cases h
    rfl
  · split at h
    · cases h
      rfl
    · cases h

theorem create_prompt_ok_store {now name domain agent_type environment si tpl : Str}
    {mp : Option ModelParams} {meta : Option Metadata} {store : Store}
    {p : Prompt} {store' : Store}
    (h : create_prompt now name domain agent_type environment si tpl mp meta store =
      (.ok p, store')) :
    lookupKV store (generate_prompt_id name domain agent_type environment) = none ∧
    store' = dictInsert store (generate_prompt_id name domain agent_type environment) p := by
  simp only [create_prompt] at h
  split at h
  · cases h
  · split at h
    · cases h
    · rename_i hnotsome
      cases h
      exact ⟨Option.not_isSome_iff_eq_none.mp hnotsome, rfl⟩

-- ─── Manifest shape of a migrate call ──────────────────────────────────

/-- Every `migrate` call either fails (leaving the manifest as loaded), or
returns a dry-run entry without touching the manifest, or appends exactly its
returned success entry at the end of the manifest. -/
theorem migrate_manifest_shape (now pid : Str) (dry : Bool) (st : Store × Manifest) :
    ((migrate now pid dry st).1.isOk = false ∧ (migrate now pid dry st).2.2 = st.2) ∨
    (dry = true ∧ (migrate now pid dry st).2.2 = st.2 ∧
      (migrate now pid dry st).1.toOption.map (fun e => e.status) =
        some "dry_run".data ∧
      (migrate now pid dry st).1.toOption.map (fun e => e.target_version) =
        some none) ∨
    (dry = false ∧
      (migrate now pid dry st).2.2 =
        st.2 ++ (migrate now pid dry st).1.toOption.toList ∧
      (migrate now pid dry st).1.toOption.map (fun e => e.status) =
        some "success".data) := by
  cases hres : resolvePromptId st.1 pid with
  | none =>
    left
    constructor <;> simp only [migrate, hres] <;> rfl
  | some rid =>
    cases hp : lookupKV st.1 rid with
    | none =>
      left
      constructor <;> simp only [migrate, hres, hp] <;> rfl
    | some p =>
      cases hv : lookupKV p.versions p.current_version with
      | none =>
        left
        constructor <;> simp only [migrate, hres, hp, hv] <;> rfl
      | some vc =>
        cases ht : ENVIRONMENT_TRANSITIONS p.environment with
        | none =>
          left
          constructor <;> simp only [migrate, hres, hp, hv, ht] <;> rfl
        | some tgt =>
          cases dry with
          | true =>
            right
            left
            refine ⟨rfl, ?_, ?_, ?_⟩ <;> simp only [migrate, hres, hp, hv, ht] <;> rfl
          | false =>
            by_cases hmem : build_env_prompt_id (get_base_prompt_id rid) tgt ∈
                (list_prompts st.1 none (some tgt) none).map (fun q => q.prompt_id)
            · cases hu : update_prompt now (build_env_prompt_id (get_base_prompt_id rid) tgt)
                  vc.system_instructions vc.template
                  ("Promoted from ".data ++ p.environment ++ " v".data ++
                    natStr p.current_version) none st.1 with
              | mk res store2 =>
                cases res with
                | error e =>
                  left
                  constructor <;>
                    simp only [migrate, hres, hp, hv, ht, hmem, hu, if_true] <;> rfl
                | ok updated =>
                  right
                  right
                  refine ⟨rfl, ?_, ?_⟩ <;>
                    simp only [migrate, hres, hp, hv, ht, hmem, hu, if_true] <;> rfl
            · cases hc : create_prompt now p.name p.domain p.agent_type tgt
                  vc.system_instructions vc.template (some p.model_parameters)
                  (some (promotedMetadata p.metadata p.environment p.current_version))
                  st.1 with
              | mk res store2 =>
                cases res with
                | error e =>
                  left
                  constructor <;>
                    simp only [migrate, hres, hp, hv, ht, hmem, hc, if_false] <;> rfl
                | ok created =>
                  right
                  right
                  refine ⟨rfl, ?_, ?_⟩ <;>
                    simp only [migrate, hres, hp, hv, ht, hmem, hc, if_false] <;> rfl

/-- C1 counterexample: a dry-run call on the sample store completes and
returns an entry with status `dry_run`, yet the manifest store is left empty:
no manifest entry is appended for a dry run, contrary to the claim that every
migrate call appends one. -/
theorem C1_counterexample :
    (migrate ts0 samplePid true (sampleStore, [])).2.2 = [] ∧
    (migrate ts0 samplePid true (sampleStore, [])).1.toOption.map
      (fun e => e.status) = some "dry_run".data := ⟨rfl, rfl⟩

/-- C1 amended (corrected): the manifest store only ever grows by appending;
a completed real migration appends exactly the returned entry, with status
`success`; a dry-run call returns an entry with status `dry_run` and
`target_version = null` but appends nothing to the manifest store; entries
already in the manifest are never modified. -/
theorem C1_manifest_append_semantics (now pid : Str) (dry : Bool)
    (st : Store × Manifest) :
    (∃ tail, (migrate now pid dry st).2.2 = st.2 ++ tail) ∧
    (∀ entry, (migrate now pid false st).1 = .ok entry →
      (migrate now pid false st).2.2 = st.2 ++ [entry] ∧
      entry.status = "success".data) ∧
    (∀ entry, (migrate now pid true st).1 = .ok entry →
      (migrate now pid true st).2.2 = st.2 ∧
      entry.status = "dry_run".data ∧ entry.target_version = none) := by
  refine ⟨?_, ?_, ?_⟩
  · rcases migrate_manifest_shape now pid dry st with ⟨_, h2⟩ | ⟨_, h2, _, _⟩ | ⟨_, h2, _⟩
    · exact ⟨[], by rw [h2, List.append_nil]⟩
    · exact ⟨[], by rw [h2, List.append_nil]⟩
    · exact ⟨(migrate now pid dry st).1.toOption.toList, h2⟩
  · intro entry hok
    rcases migrate_manifest_shape now pid false st with ⟨h1, _⟩ | ⟨hd, _, _, _⟩ |
        ⟨_, h2, h3⟩
    · rw [hok] at h1
      cases h1
    · cases hd
    · rw [hok] at h2 h3
      simp only [Except.toOption, Option.map_some', Option.some.injEq,
        Option.toList_some] at h2 h3
      exact ⟨h2, h3⟩
  · intro entry hok
    rcases migrate_manifest_shape now pid true st with ⟨h1, _⟩ | ⟨_, h2, h3, h4⟩ |
        ⟨hd, _, _⟩
    · rw [hok] at h1
      cases h1
    · rw [hok] at h3 h4
      simp only [Except.toOption, Option.map_some', Option.some.injEq] at h3 h4
      exact ⟨h2, h3, h4⟩
    · cases hd

/-- Witness for C1 at a concrete input: the concrete real migration of the
sample prompt appends exactly its returned success entry to the empty
manifest. -/
theorem C1_witness :
    (migrate ts0 samplePid false (sampleStore, [])).2.2 = [] ++ [c1entry] ∧
    c1entry.status = "success".data := by
  have h := (C1_manifest_append_semantics ts0 samplePid false (sampleStore, [])).2.1
    c1entry rfl
  exact ⟨h.1, h.2⟩

/-- C2 (confirmed): a dry-run migrate on a resolvable record that is not in
the terminal environment leaves both persisted documents exactly as they
were (no new record, no new version, no field modified) and returns an entry
with status `dry_run` and `target_version = null`. -/
theorem C2_dry_run_no_side_effects (now pid rid : Str) (p : Prompt) (vc : Version)
    (tgt : Str) (st : Store × Manifest)
    (hres : resolvePromptId st.1 pid = some rid)
    (hp : lookupKV st.1 rid = some p)
    (hv : lookupKV p.versions p.current_version = some vc)
    (ht : ENVIRONMENT_TRANSITIONS p.environment = some tgt) :
    (migrate now pid true st).2 = st ∧
    (migrate now pid true st).1.isOk = true ∧
    (∀ entry, (migrate now pid true st).1 = .ok entry →
      entry.status = "dry_run".data ∧ entry.target_version = none ∧
      entry.dry_run = true) := by
  refine ⟨?_, ?_, ?_⟩
  · simp only [migrate, hres, hp, hv, ht, if_true] <;> rfl
  · simp only [migrate, hres, hp, hv, ht, if_true] <;> rfl
  · intro entry hok
    simp only [migrate, hres, hp, hv, ht, if_true] at hok
    cases hok
    exact ⟨rfl, rfl, rfl⟩

/-- Witness for C2 at a concrete input: the concrete dry run on the sample
store changes neither document and returns a dry-run entry. -/
theorem C2_witness :
    (migrate ts0 samplePid true (sampleStore, [])).2 = (sampleStore, []) ∧
    (migrate ts0 samplePid true (sampleStore, [])).1.isOk = true ∧
    (c2entry.status = "dry_run".data ∧ c2entry.target_version = none ∧
      c2entry.dry_run = true) := by
  have h := C2_dry_run_no_side_effects ts0 samplePid samplePid samplePrompt
    sampleV1 "qa".data (sampleStore, []) rfl rfl rfl rfl
  exact ⟨h.1, h.2.1, h.2.2 c2entry rfl⟩

/-- C5 (confirmed): promotion from a record whose id carries its environment
suffix only ever targets the immediate successor of its environment in the
fixed order dev, qa, staging, prod; a record in prod fails with the
terminal-environment error and nothing changes; and in every outcome the
source record is left untouched in the registry. -/
theorem C5_promotion_one_hop (now pid rid b : Str) (p : Prompt) (vc : Version)
    (dry : Bool) (st : Store × Manifest)
    (hres : resolvePromptId st.1 pid = some rid)
    (hp : lookupKV st.1 rid = some p)
    (hv : lookupKV p.versions p.current_version = some vc)
    (hwf : rid = b ++ '_' :: p.environment)
    (henv : p.environment ∈ ENVIRONMENTS) :
    (p.environment = "prod".data →
      migrate now pid dry st = (.error .terminalEnvironment, st)) ∧
    (∀ entry, (migrate now pid dry st).1 = .ok entry →
      entry.source_env = p.environment ∧
      ENVIRONMENT_TRANSITIONS p.environment = some entry.target_env) ∧
    lookupKV (migrate now pid dry st).2.1 rid = some p := by
  have hbase : get_base_prompt_id rid = b := by
    rw [hwf]
    exact get_base_prompt_id_append_env henv
  refine ⟨?_, ?_, ?_⟩
  · intro hprod
    have ht : ENVIRONMENT_TRANSITIONS p.environment = none := by
      rw [hprod]
      rfl
    simp only [migrate, hres, hp, hv, ht]
  · intro entry hok
    cases ht : ENVIRONMENT_TRANSITIONS p.environment with
    | none =>
      simp only [migrate, hres, hp, hv, ht] at hok
      cases hok
    | some tgt =>
      cases dry with
      | true =>
        simp only [migrate, hres, hp, hv, ht, if_true] at hok
        cases hok
        exact ⟨rfl, rfl⟩
      | false =>
        by_cases hmem : build_env_prompt_id (get_base_prompt_id rid) tgt ∈
            (list_prompts st.1 none (some tgt) none).map (fun q => q.prompt_id)
        · cases hu : update_prompt now (build_env_prompt_id (get_base_prompt_id rid) tgt)
              vc.system_instructions vc.template
              ("Promoted from ".data ++ p.environment ++ " v".data ++
                natStr p.current_version) none st.1 with
          | mk res store2 =>
            cases res with
            | error e =>
              simp only [migrate, hres, hp, hv, ht, hmem, hu, if_true] at hok
              cases hok
            | ok updated =>
              simp only [migrate, hres, hp, hv, ht, hmem, hu, if_true] at hok
              cases hok
              exact ⟨rfl, rfl⟩
        · cases hc : create_prompt now p.name p.domain p.agent_type tgt
              vc.system_instructions vc.template (some p.model_parameters)
              (some (promotedMetadata p.metadata p.environment p.current_version))
              st.1 with
          | mk res store2 =>
            cases res with
            | error e =>
              simp only [migrate, hres, hp, hv, ht, hmem, hc, if_false] at hok
              cases hok
            | ok created =>
              simp only [migrate, hres, hp, hv, ht, hmem, hc, if_false] at hok
              cases hok
              exact ⟨rfl, rfl⟩
  · cases ht : ENVIRONMENT_TRANSITIONS p.environment with
    | none =>
      simp only [migrate, hres, hp, hv, ht]
    | some tgt =>
      obtain ⟨htm, htne⟩ := transitions_mem_ne ht
      have htarget_ne : build_env_prompt_id (get_base_prompt_id rid) tgt ≠ rid := by
        rw [hbase, hwf]
        show get_base_prompt_id b ++ '_' :: tgt ≠ b ++ '_' :: p.environment
        exact target_ne_source henv htm htne
      cases dry with
      | true =>
        simp only [migrate, hres, hp, hv, ht, if_true]
      | false =>
        by_cases hmem : build_env_prompt_id (get_base_prompt_id rid) tgt ∈
            (list_prompts st.1 none (some tgt) none).map (fun q => q.prompt_id)
        · cases hu : update_prompt now (build_env_prompt_id (get_base_prompt_id rid) tgt)
              vc.system_instructions vc.template
              ("Promoted from ".data ++ p.environment ++ " v".data ++
                natStr p.current_version) none st.1 with
          | mk res store2 =>
            cases res with
            | error e =>
              simp only [migrate, hres, hp, hv, ht, hmem, hu, if_true]
              rw [update_prompt_error_store hu]
              exact hp
            | ok updated =>
              simp only [migrate, hres, hp, hv, ht, hmem, hu, if_true,
                Bool.false_eq_true, if_false]
              rw [update_prompt_ok_store hu,
                lookupKV_dictInsert_ne st.1 _ rid updated htarget_ne]
              exact hp
        · cases hc : create_prompt now p.name p.domain p.agent_type tgt
              vc.system_instructions vc.template (some p.model_parameters)
              (some (promotedMetadata p.metadata p.environment p.current_version))
              st.1 with
          | mk res store2 =>
            cases res with
            | error e =>
              simp only [migrate, hres, hp, hv, ht, hmem, hc, if_false]
              rw [create_prompt_error_store hc]
              exact hp
            | ok created =>
              obtain ⟨hnone, hst⟩ := create_prompt_ok_store hc
              have hgid_ne : generate_prompt_id p.name p.domain p.agent_type tgt ≠ rid := by
                intro heq
                rw [heq, hp] at hnone
                cases hnone
              simp only [migrate, hres, hp, hv, ht, hmem, hc,
                Bool.false_eq_true, if_false]
              rw [hst, lookupKV_dictInsert_ne st.1 _ rid created hgid_ne]
              exact hp

/-- Witness for C5 at a concrete input: the concrete real migration of the
sample dev prompt records dev as source, targets qa (the immediate
successor), and leaves the source record untouched. -/
theorem C5_witness :
    (c5entry.source_env = samplePrompt.environment ∧
      ENVIRONMENT_TRANSITIONS samplePrompt.environment = some c5entry.target_env) ∧
    lookupKV (migrate ts0 samplePid false (sampleStore, [])).2.1 samplePid =
      some samplePrompt := by
  have h := C5_promotion_one_hop ts0 samplePid samplePid
    "dfcx_billing_billing_payment_query".data samplePrompt sampleV1 false
    (sampleStore, []) rfl rfl rfl (by decide) (by decide)
  exact ⟨h.2.1 c5entry rfl, h.2.2⟩
